import Mathlib

/-!
Verification of the Ami SOS alert routing and escalation engine
(`src/main.py`, `src/migrar_completa.py`) against its natural-language
specification.  Each Python function relevant to the claims is embedded
shallowly: pure helpers become Lean functions, database state becomes
explicit record-of-lists state threaded through the handlers, each SQL
statement becomes one primitive state operation, and HTTP errors become
`Except` codes.
-/

namespace AmiSos

/-! ### Identity normalization (`normalizar_celular`, main.py:460-464)

The Python function strips non-digits, removes a leading country prefix
`57` when the string is longer than 10 digits, and returns both the
bare form and the `57`-prefixed form. -/

def soloDigitos (s : String) : List Char :=
  s.data.filter Char.isDigit

/-- `celular.startswith('57')` on the digit-only form. -/
def empiezaCon57 : List Char → Bool
  | '5' :: '7' :: _ => true
  | _ => false

def normalizar_celular (celular : String) : String × String :=
  let c := soloDigitos celular
  let sin_57 := if empiezaCon57 c && decide (10 < c.length) then c.drop 2 else c
  (String.mk sin_57, String.mk ('5' :: '7' :: sin_57))

/-! ### Protocol table (`PROTOCOLOS_EMERGENCIA`, `PROTOCOLO_DEFAULT`,
`obtener_protocolo`, main.py:65-260)

The message-template and instruction strings of each table entry are not
consulted by any claim; the embedded record keeps the routing fields:
participating circles, minimum tier, emergency-line flags, re-escalation
timeout in minutes, and the preventive marker. -/

structure Circulos where
  cuidadores : Bool
  comunidad : Bool
  policia : Bool
  ambulancia : Bool
  bomberos : Bool
  deriving Repr, DecidableEq

structure Protocolo where
  circulos : Circulos
  nivel_minimo : Nat
  llamar_123 : Bool
  llamar_155 : Bool
  escalar_min : Nat
  es_preventiva : Bool
  deriving Repr, DecidableEq

def proto_robo_hurto : Protocolo :=
  { circulos := ⟨true, true, true, false, false⟩
  , nivel_minimo := 2, llamar_123 := true, llamar_155 := false
  , escalar_min := 3, es_preventiva := false }

def proto_robo_armado : Protocolo :=
  { circulos := ⟨true, true, true, true, false⟩
  , nivel_minimo := 3, llamar_123 := true, llamar_155 := false
  , escalar_min := 1, es_preventiva := false }

def proto_persona_sospechosa : Protocolo :=
  { circulos := ⟨false, true, true, false, false⟩
  , nivel_minimo := 1, llamar_123 := false, llamar_155 := false
  , escalar_min := 10, es_preventiva := true }

def proto_vehiculo_sospechoso : Protocolo :=
  { circulos := ⟨false, true, true, false, false⟩
  , nivel_minimo := 1, llamar_123 := false, llamar_155 := false
  , escalar_min := 15, es_preventiva := true }

def proto_agresion_fisica : Protocolo :=
  { circulos := ⟨true, true, true, true, false⟩
  , nivel_minimo := 3, llamar_123 := true, llamar_155 := true
  , escalar_min := 2, es_preventiva := false }

def proto_violencia_intrafamiliar : Protocolo :=
  { circulos := ⟨true, true, true, false, false⟩
  , nivel_minimo := 3, llamar_123 := true, llamar_155 := true
  , escalar_min := 1, es_preventiva := false }

def proto_emergencia_medica : Protocolo :=
  { circulos := ⟨true, true, false, true, false⟩
  , nivel_minimo := 2, llamar_123 := true, llamar_155 := false
  , escalar_min := 2, es_preventiva := false }

def proto_persona_herida : Protocolo :=
  { circulos := ⟨true, true, false, true, false⟩
  , nivel_minimo := 2, llamar_123 := true, llamar_155 := false
  , escalar_min := 2, es_preventiva := false }

def proto_caida_persona : Protocolo :=
  { circulos := ⟨true, true, false, false, false⟩
  , nivel_minimo := 1, llamar_123 := false, llamar_155 := false
  , escalar_min := 5, es_preventiva := false }

def proto_adulto_perdido : Protocolo :=
  { circulos := ⟨true, true, true, false, false⟩
  , nivel_minimo := 1, llamar_123 := false, llamar_155 := false
  , escalar_min := 10, es_preventiva := false }

def proto_accidente_transito : Protocolo :=
  { circulos := ⟨true, true, true, true, false⟩
  , nivel_minimo := 2, llamar_123 := true, llamar_155 := false
  , escalar_min := 3, es_preventiva := false }

def proto_incendio : Protocolo :=
  { circulos := ⟨true, true, true, true, true⟩
  , nivel_minimo := 3, llamar_123 := true, llamar_155 := false
  , escalar_min := 1, es_preventiva := false }

def proto_inundacion : Protocolo :=
  { circulos := ⟨true, true, true, false, true⟩
  , nivel_minimo := 2, llamar_123 := true, llamar_155 := false
  , escalar_min := 2, es_preventiva := false }

def proto_situacion_riesgo : Protocolo :=
  { circulos := ⟨true, true, true, false, false⟩
  , nivel_minimo := 1, llamar_123 := false, llamar_155 := false
  , escalar_min := 5, es_preventiva := false }

def proto_dano_propiedad : Protocolo :=
  { circulos := ⟨false, true, true, false, false⟩
  , nivel_minimo := 1, llamar_123 := false, llamar_155 := false
  , escalar_min := 15, es_preventiva := false }

def proto_no_emergencia : Protocolo :=
  { circulos := ⟨true, false, false, false, false⟩
  , nivel_minimo := 1, llamar_123 := false, llamar_155 := false
  , escalar_min := 30, es_preventiva := false }

def proto_imagen_no_clara : Protocolo :=
  { circulos := ⟨true, false, false, false, false⟩
  , nivel_minimo := 1, llamar_123 := false, llamar_155 := false
  , escalar_min := 5, es_preventiva := false }

def PROTOCOLOS_EMERGENCIA : String → Option Protocolo
  | "robo_hurto" => some proto_robo_hurto
  | "robo_armado" => some proto_robo_armado
  | "persona_sospechosa" => some proto_persona_sospechosa
  | "vehiculo_sospechoso" => some proto_vehiculo_sospechoso
  | "agresion_fisica" => some proto_agresion_fisica
  | "violencia_intrafamiliar" => some proto_violencia_intrafamiliar
  | "emergencia_medica" => some proto_emergencia_medica
  | "persona_herida" => some proto_persona_herida
  | "caida_persona" => some proto_caida_persona
  | "adulto_perdido" => some proto_adulto_perdido
  | "accidente_transito" => some proto_accidente_transito
  | "incendio" => some proto_incendio
  | "inundacion" => some proto_inundacion
  | "situacion_riesgo" => some proto_situacion_riesgo
  | "dano_propiedad" => some proto_dano_propiedad
  | "no_emergencia" => some proto_no_emergencia
  | "imagen_no_clara" => some proto_imagen_no_clara
  | _ => none

def PROTOCOLO_DEFAULT : Protocolo :=
  { circulos := ⟨true, true, true, false, false⟩
  , nivel_minimo := 2, llamar_123 := true, llamar_155 := false
  , escalar_min := 3, es_preventiva := false }

/-- `obtener_protocolo` (main.py:245-260): look the classification up,
fall back to the default protocol; under `tiene_arma` on a plain
`robo_hurto` switch to the armed-robbery entry; a weapon then forces
police participation, minimum tier 3 and a 1-minute re-escalation
timeout, and injuries force ambulance participation and minimum
tier at least 2. -/
def obtener_protocolo (clasificacion : String)
    (tiene_arma : Bool := false) (hay_heridos : Bool := false) : Protocolo :=
  let proto0 := (PROTOCOLOS_EMERGENCIA clasificacion).getD PROTOCOLO_DEFAULT
  let proto1 :=
    if tiene_arma ∧ clasificacion = "robo_hurto" then proto_robo_armado else proto0
  let proto2 :=
    if tiene_arma then
      { proto1 with circulos := { proto1.circulos with policia := true }
                  , nivel_minimo := 3, escalar_min := 1 }
    else proto1
  if hay_heridos then
    { proto2 with circulos := { proto2.circulos with ambulancia := true }
                , nivel_minimo :=
                    if proto2.nivel_minimo < 2 then 2 else proto2.nivel_minimo }
  else proto2

/-! ### Circle gating in `recibir_alerta` (main.py:593-699)

The handler clamps the requested tier to `{1,2,3}` (default 2), then
resolves the institutional circle only under
`nivel >= 2 and req.latitud and req.longitud` and the community circle
only under `nivel >= 3 and req.latitud and req.longitud`.  Python
truthiness makes an absent coordinate (`None`) and the value `0.0`
behave identically.  The interior resolution (radius filter, type
compatibility, sorting) receives the coordinates and is abstracted here
as the `resolver` argument, since the gating claims hold for every
interior resolution. -/

def clampNivel (n : Int) : Int :=
  if n = 1 ∨ n = 2 ∨ n = 3 then n else 2

structure Institucional where
  celular : String
  nombre : String
  entidad : String
  tipo : String
  distancia_km : ℚ
  deriving Repr, DecidableEq

structure MiembroComunidad where
  celular : String
  nombre : String
  distancia_km : ℚ
  deriving Repr, DecidableEq

/-- The guard `nivel >= 2 and req.latitud and req.longitud` on the
institutional branch of `recibir_alerta` (main.py:664-666). -/
def circuloInstitucional (nivel : Int) (latitud longitud : Option ℚ)
    (resolver : ℚ → ℚ → List Institucional) : List Institucional :=
  match latitud, longitud with
  | some la, some lo =>
      if 2 ≤ nivel ∧ la ≠ 0 ∧ lo ≠ 0 then resolver la lo else []
  | _, _ => []

/-- The guard `nivel >= 3 and req.latitud and req.longitud` on the
community branch of `recibir_alerta` (main.py:697-699). -/
def circuloComunitario (nivel : Int) (latitud longitud : Option ℚ)
    (resolver : ℚ → ℚ → List MiembroComunidad) : List MiembroComunidad :=
  match latitud, longitud with
  | some la, some lo =>
      if 3 ≤ nivel ∧ la ≠ 0 ∧ lo ≠ 0 then resolver la lo else []
  | _, _ => []

/-- Python truthiness of an optional coordinate: `None` and `0.0` are
falsy, every other value truthy. -/
def truthyCoord : Option ℚ → Prop
  | none => False
  | some x => x ≠ 0

/-- The institutional and community circles produced by one ingestion,
as a function of the raw requested tier and the optional coordinates. -/
def recibirAlertaCirculos (nivel_req : Int) (latitud longitud : Option ℚ)
    (resolverInst : ℚ → ℚ → List Institucional)
    (resolverCom : ℚ → ℚ → List MiembroComunidad) :
    List Institucional × List MiembroComunidad :=
  let nivel := clampNivel nivel_req
  (circuloInstitucional nivel latitud longitud resolverInst,
   circuloComunitario nivel latitud longitud resolverCom)

/-! ### Great-circle distance (`distancia_km`, main.py:466-471) and the
community radius filter (`buscar_red_comunitaria`, main.py:562-586)

The Python code computes the haversine distance with Earth radius
6371 km over IEEE floats; the embedding uses real numbers and the exact
formula `R * 2 * asin(sqrt(a))`.  `buscar_red_comunitaria` keeps the
candidates whose distance to the origin is at most 1.0 km (the SQL
pre-filter — availability, freshness, non-blocked, non-source — happens
upstream and the rows it returns are the `candidatos` input here);
membership in the filtered result is modelled as a set, the
distance-ascending sort not being consulted by any claim. -/

noncomputable def radianes (x : ℝ) : ℝ := x * Real.pi / 180

noncomputable def distancia_km (lat1 lon1 lat2 lon2 : ℝ) : ℝ :=
  let dlat := radianes (lat2 - lat1)
  let dlon := radianes (lon2 - lon1)
  let a := Real.sin (dlat / 2) ^ 2 +
    Real.cos (radianes lat1) * Real.cos (radianes lat2) * Real.sin (dlon / 2) ^ 2
  6371 * 2 * Real.arcsin (Real.sqrt a)

structure MiembroRed where
  celular : String
  nombre : String
  latitud : ℝ
  longitud : ℝ

/-- The candidates kept by the `dist <= 1.0` radius check of
`buscar_red_comunitaria`. -/
def cercanosComunitaria (lat lon : ℝ) (candidatos : List MiembroRed) :
    Set MiembroRed :=
  {r | r ∈ candidatos ∧ distancia_km lat lon r.latitud r.longitud ≤ 1}

/-! ### Personal-contact circle resolution (main.py:640-662)

Two source loops build the `cuidadores` list: rows of
`contactos_confianza` first (keeping the stored contact name), then rows
of `cuidadores_autorizados` (with the fixed display name `"Cuidador"`),
each appended only when its phone key is not in the `cels_vistos` set. -/

structure Contacto where
  celular : String
  nombre : String
  deriving Repr, DecidableEq

structure Autorizado where
  celular_cuidador : String
  id_persona_cuidador : Option Nat
  deriving Repr, DecidableEq

structure Destinatario where
  celular : String
  nombre : String
  tipo : String
  id_persona : Option Nat
  deriving Repr, DecidableEq

/-- The `contactos_confianza` loop: append each contact not yet seen,
recording its phone key into the seen set.  Returns the appended
entries together with the final seen set. -/
def pasoContactos (vistos : List String) :
    List Contacto → List Destinatario × List String
  | [] => ([], vistos)
  | r :: resto =>
      if r.celular ∈ vistos then pasoContactos vistos resto
      else
        let p := pasoContactos (r.celular :: vistos) resto
        (⟨r.celular, r.nombre, "cuidador", none⟩ :: p.1, p.2)

/-- The `cuidadores_autorizados` loop, continuing with the seen set left
by the contact loop. -/
def pasoAutorizados (vistos : List String) :
    List Autorizado → List Destinatario × List String
  | [] => ([], vistos)
  | r :: resto =>
      if r.celular_cuidador ∈ vistos then pasoAutorizados vistos resto
      else
        let p := pasoAutorizados (r.celular_cuidador :: vistos) resto
        (⟨r.celular_cuidador, "Cuidador", "cuidador", r.id_persona_cuidador⟩ :: p.1,
         p.2)

/-- The personal-contact circle: contact-list entries first, then
caregiver authorizations, deduplicated by phone key with first
occurrence winning. -/
def resolverCuidadores (contactos : List Contacto)
    (autorizados : List Autorizado) : List Destinatario :=
  let p1 := pasoContactos [] contactos
  let p2 := pasoAutorizados p1.2 autorizados
  p1.1 ++ p2.1

/-! ### Dispatcher (`_enviar_notificaciones_v2`, main.py:726-784)

The background dispatch concatenates the three circle lists tagging
each entry with its role, and for every entry resolves a delivery token
(`buscar_token`, abstracted as the `tokens` lookup), attempts the push
when a token exists (`pushOk` abstracts the transport outcome), and
always inserts exactly one `alertas_enviadas` row whose
`estado_envio` is `"enviado"` on success and `"fallido"` otherwise —
including when no token was found at all. -/

structure DestEnvio where
  celular : String
  nombre : String
  entidad : Option String
  id_persona : Option Nat
  deriving Repr, DecidableEq

structure RegistroEnvio where
  alerta_id : Nat
  celular_destino : String
  token : String
  estado_envio : String
  rol_destinatario : String
  receptor_destino : String
  deriving Repr, DecidableEq

/-- The body of the per-recipient loop: one `alertas_enviadas` row. -/
def registroDe (alerta_id : Nat) (tokens : String → Option String)
    (pushOk : String → Bool) (d : DestEnvio) (rol : String) : RegistroEnvio :=
  match tokens d.celular with
  | some t =>
      { alerta_id, celular_destino := d.celular, token := t
      , estado_envio := if pushOk t then "enviado" else "fallido"
      , rol_destinatario := rol, receptor_destino := d.entidad.getD rol }
  | none =>
      { alerta_id, celular_destino := d.celular, token := ""
      , estado_envio := "fallido"
      , rol_destinatario := rol, receptor_destino := d.entidad.getD rol }

def todosDestinatarios (cuidadores institucionales comunidad : List DestEnvio) :
    List (DestEnvio × String) :=
  cuidadores.map (fun c => (c, "cuidador")) ++
  institucionales.map (fun i => (i, "institucional")) ++
  comunidad.map (fun m => (m, "comunidad"))

def enviarNotificacionesV2 (alerta_id : Nat) (tokens : String → Option String)
    (pushOk : String → Bool)
    (cuidadores institucionales comunidad : List DestEnvio) :
    List RegistroEnvio :=
  (todosDestinatarios cuidadores institucionales comunidad).map
    (fun p => registroDe alerta_id tokens pushOk p.1 p.2)

/-! ### Respond to an alert (`responder_alerta`, main.py:789-846)

`respuestas_institucionales` (migrar_completa.py:156-172) has no
uniqueness constraint; the only duplicate guard is the handler's
`SELECT ... WHERE alerta_id=$1 AND celular IN ($2,$3)` check, and it
runs only under `if req.id_persona:` — Python truthiness, so both
`None` and `0` skip it.  The two profile lookups used for the display
name are abstracted as lookups on the two phone forms. -/

structure RespuestaAlertaReq where
  alerta_id : Nat
  celular : String
  id_persona : Option Nat
  tipo_respondedor : String
  accion : Option String
  deriving Repr, DecidableEq

structure RespuestaRow where
  alerta_id : Nat
  id_persona : Nat
  celular : String
  entidad : String
  nombre : String
  estado : String
  deriving Repr, DecidableEq

def truthyNat : Option Nat → Bool
  | none => false
  | some n => n != 0

def responder_alerta (alertas : List Nat) (respuestas : List RespuestaRow)
    (instituciones : String → String → Option (String × String))
    (usuariosNombre : String → String → Option String)
    (req : RespuestaAlertaReq) :
    Except Nat (List RespuestaRow × String × String) :=
  let cs := (normalizar_celular req.celular).1
  let cc := (normalizar_celular req.celular).2
  if req.alerta_id ∉ alertas then .error 404
  else if truthyNat req.id_persona &&
      respuestas.any (fun r =>
        r.alerta_id == req.alerta_id && (r.celular == cs || r.celular == cc)) then
    .error 409
  else
    let ne :=
      if req.tipo_respondedor = "institucional" then
        match instituciones cs cc with
        | some r => r
        | none => ("Respondedor", req.tipo_respondedor)
      else
        ((usuariosNombre cs cc).getD "Respondedor",
         if req.tipo_respondedor = "comunidad" then "Red comunitaria" else "Cuidador")
    let fila : RespuestaRow :=
      { alerta_id := req.alerta_id, id_persona := (req.id_persona).getD 0
      , celular := cc, entidad := ne.2, nombre := ne.1
      , estado := (req.accion).getD "voy_en_camino" }
    .ok (respuestas ++ [fila], ne.1, (req.accion).getD "voy_en_camino")

/-! ### Abuse reports (`reportar_usuario`, main.py:1225-1250)

State: the `reportes_usuario` rows (reported, reporter) — both stored
in prefixed form, with a `UNIQUE(celular_reportado, celular_reporta)`
constraint mirrored by the duplicate check —, the `usuarios_sos` rows,
and the `ubicaciones_red` rows. -/

structure UsuarioSos where
  celular : String
  bloqueado : Bool
  motivo_bloqueo : Option String
  deriving Repr, DecidableEq

structure UbicacionRow where
  celular : String
  disponible : Bool
  deriving Repr, DecidableEq

structure EstadoAbuso where
  reportes : List (String × String)
  usuarios : List UsuarioSos
  ubicaciones : List UbicacionRow
  deriving Repr, DecidableEq

/-- `UPDATE usuarios_sos SET bloqueado=TRUE, motivo_bloqueo=$1,
fecha_bloqueo=NOW() WHERE celular IN ($2, $3)`. -/
def bloquearUsuarios (cs_reportado cc_reportado : String) (total : Nat)
    (usuarios : List UsuarioSos) : List UsuarioSos :=
  usuarios.map (fun u =>
    if u.celular = cs_reportado ∨ u.celular = cc_reportado then
      { u with bloqueado := true
             , motivo_bloqueo :=
                 some ("auto_block_" ++ toString total ++ "_reports") }
    else u)

/-- `UPDATE ubicaciones_red SET disponible=FALSE WHERE celular=$1`. -/
def deshabilitarUbicaciones (cc_reportado : String)
    (ubicaciones : List UbicacionRow) : List UbicacionRow :=
  ubicaciones.map (fun p =>
    if p.celular = cc_reportado then { p with disponible := false } else p)

def reportar_usuario (st : EstadoAbuso)
    (celular_reporta celular_reportado : String) :
    Except Nat (EstadoAbuso × Nat × Bool) :=
  let cc_reporta := (normalizar_celular celular_reporta).2
  let cs_reportado := (normalizar_celular celular_reportado).1
  let cc_reportado := (normalizar_celular celular_reportado).2
  if cc_reporta = cc_reportado then .error 400
  else if (cc_reportado, cc_reporta) ∈ st.reportes then .error 409
  else
    let reportes := st.reportes ++ [(cc_reportado, cc_reporta)]
    let total := (reportes.filter (fun p => p.1 == cc_reportado)).length
    if 3 ≤ total then
      .ok (⟨reportes, bloquearUsuarios cs_reportado cc_reportado total st.usuarios,
            deshabilitarUbicaciones cc_reportado st.ubicaciones⟩, total, true)
    else
      .ok ({ st with reportes := reportes }, total, false)

/-! ### Vigilance quorum machine (`confirmar_vigilancia`, main.py:1156-1192)

Each SQL statement of the handler becomes one primitive operation on
the database state, so that both the sequential handler and an
interleaving of two concurrent handlers can be expressed over the same
primitives.  `confirmaciones_vigilancia` carries
`UNIQUE(vigilancia_id, celular)` (migrar_completa.py:265-276), mirrored
by `insertarConfirmacion` returning a success flag. -/

structure Vigilancia where
  id : Nat
  celular : String
  nombre : String
  descripcion : String
  estado : String
  confirmaciones : Nat
  rechazos : Nat
  escalada : Bool
  alerta_id : Option Nat
  deriving Repr, DecidableEq

structure ConfirmacionRow where
  vigilancia_id : Nat
  celular : String
  confirma : Bool
  deriving Repr, DecidableEq

structure AlertaPanico where
  id : Nat
  celular : String
  nombre : String
  nivel_emergencia : Int
  tipo_alerta : String
  mensaje : String
  fuente_alerta : String
  deriving Repr, DecidableEq

structure BaseDatos where
  vigilancias : List Vigilancia
  confirmaciones : List ConfirmacionRow
  alertas : List AlertaPanico
  proximo_alerta_id : Nat
  deriving Repr, DecidableEq

/-- `SELECT * FROM vigilancias WHERE id=$1 AND estado='activa'`. -/
def fetchVigilanciaActiva (bd : BaseDatos) (vid : Nat) : Option Vigilancia :=
  bd.vigilancias.find? (fun v => v.id == vid && v.estado == "activa")

/-- `INSERT INTO confirmaciones_vigilancia ...`; the `Bool` component is
`false` exactly when the unique constraint on
`(vigilancia_id, celular)` rejects the row. -/
def insertarConfirmacion (bd : BaseDatos) (vid : Nat) (cel : String)
    (confirma : Bool) : BaseDatos × Bool :=
  if bd.confirmaciones.any (fun c => c.vigilancia_id == vid && c.celular == cel) then
    (bd, false)
  else
    ({ bd with confirmaciones := bd.confirmaciones ++ [⟨vid, cel, confirma⟩] }, true)

/-- `UPDATE vigilancias SET confirmaciones = confirmaciones + 1 WHERE id=$1`. -/
def incConfirmaciones (bd : BaseDatos) (vid : Nat) : BaseDatos :=
  { bd with vigilancias := bd.vigilancias.map (fun v =>
      if v.id == vid then { v with confirmaciones := v.confirmaciones + 1 } else v) }

/-- `UPDATE vigilancias SET rechazos = rechazos + 1 WHERE id=$1`. -/
def incRechazos (bd : BaseDatos) (vid : Nat) : BaseDatos :=
  { bd with vigilancias := bd.vigilancias.map (fun v =>
      if v.id == vid then { v with rechazos := v.rechazos + 1 } else v) }

/-- The post-increment snapshot `SELECT` of the handler. -/
def leerVigilancia (bd : BaseDatos) (vid : Nat) : Option Vigilancia :=
  bd.vigilancias.find? (fun v => v.id == vid)

/-- `INSERT INTO alertas_panico (... 2, 'seguridad', mensaje ...)
VALUES ... RETURNING id`, the escalation alert with its
witness-count message. -/
def insertarAlertaEscalada (bd : BaseDatos) (snapshot : Vigilancia) :
    BaseDatos × Nat :=
  let aid := bd.proximo_alerta_id
  let mensaje := "Actividad sospechosa confirmada: " ++
    snapshot.descripcion.take 200 ++ ". " ++
    toString snapshot.confirmaciones ++ " testigos."
  ({ bd with
      alertas := bd.alertas ++
        [⟨aid, snapshot.celular, snapshot.nombre, 2, "seguridad", mensaje, "vigilancia"⟩]
    , proximo_alerta_id := aid + 1 }, aid)

/-- `UPDATE vigilancias SET escalada=TRUE, alerta_id=$1 WHERE id=$2`. -/
def marcarEscalada (bd : BaseDatos) (vid aid : Nat) : BaseDatos :=
  { bd with vigilancias := bd.vigilancias.map (fun v =>
      if v.id == vid then { v with escalada := true, alerta_id := some aid } else v) }

/-- The escalation decision of the handler: it tests the snapshot it
read (`updated['confirmaciones'] >= 2 and not updated['escalada']`),
then performs the alert insert and the flag update — a read-then-write
sequence, not an atomic conditional update. -/
def escalarSiProcede (bd : BaseDatos) (snapshot : Vigilancia) :
    BaseDatos × Option Nat :=
  if 2 ≤ snapshot.confirmaciones ∧ snapshot.escalada = false then
    let p := insertarAlertaEscalada bd snapshot
    (marcarEscalada p.1 snapshot.id p.2, some p.2)
  else (bd, none)

/-- The whole handler run sequentially: 404 when no active vigilance,
409 on a duplicate confirmation, then increment, snapshot, and the
conditional escalation.  Returns the final state, the snapshot counts
and the created alert id, mirroring the handler's JSON response. -/
def confirmar_vigilancia (bd : BaseDatos) (vid : Nat) (cel : String)
    (confirma : Bool) : Except Nat (BaseDatos × Nat × Nat × Option Nat) :=
  match fetchVigilanciaActiva bd vid with
  | none => .error 404
  | some _ =>
    let p := insertarConfirmacion bd vid cel confirma
    if p.2 = false then .error 409
    else
      let bd2 := if confirma then incConfirmaciones p.1 vid else incRechazos p.1 vid
      match leerVigilancia bd2 vid with
      | none => .error 500
      | some snapshot =>
          let q := escalarSiProcede bd2 snapshot
          .ok (q.1, snapshot.confirmaciones, snapshot.rechazos, q.2)

/-- A vigilance with one prior confirmation, still active. -/
def bdCarrera0 : BaseDatos :=
  { vigilancias :=
      [⟨1, "573000000001", "Vecino", "merodeo nocturno", "activa", 1, 0, false, none⟩]
  , confirmaciones := [⟨1, "573000000002", true⟩]
  , alertas := []
  , proximo_alerta_id := 1 }

/-- Two sequential confirmations by distinct witnesses on `bdCarrera0`. -/
def secuencialVigilancia : BaseDatos :=
  match confirmar_vigilancia bdCarrera0 1 "573000000003" true with
  | .error _ => bdCarrera0
  | .ok r =>
    match confirmar_vigilancia r.1 1 "573000000004" true with
    | .error _ => r.1
    | .ok r2 => r2.1

/-- An interleaving of the same two confirmations in which both writers
execute their insert and increment statements, then both read their
decision snapshot before either performs the escalation writes — a
schedule the statement-at-a-time database permits, since the handler
has no transaction around the snapshot and the escalation. -/
def carreraVigilancia : BaseDatos :=
  let bdB := incConfirmaciones (insertarConfirmacion bdCarrera0 1 "573000000003" true).1 1
  let bdC := incConfirmaciones (insertarConfirmacion bdB 1 "573000000004" true).1 1
  match leerVigilancia bdC 1 with
  | none => bdC
  | some snapshot =>
      let pB := escalarSiProcede bdC snapshot
      let pC := escalarSiProcede pB.1 snapshot
      pC.1

/-! ### Relay deduplication (`relay_ble`, main.py:888-913)

After resolving the BLE device to its owner, the handler looks for an
existing alert of that owner with `fuente_alerta='relay'` created
within the last five minutes (`fecha_hora > NOW() - INTERVAL '5
minutes'`) and returns its id; otherwise it builds an `AlertaRequest`
with `fuente_alerta='relay_ble'`, which `recibir_alerta` stores with
`fuente_alerta='relay'` (its `fuente_map`) under the owner's prefixed
phone form.  Timestamps are minutes. -/

structure AlertaRelayRow where
  id : Nat
  celular : String
  fuente_alerta : String
  fecha_hora : Int
  deriving Repr, DecidableEq

/-- `SELECT id FROM alertas_panico WHERE celular=$1 AND
fuente_alerta='relay' AND fecha_hora > NOW() - INTERVAL '5 minutes'`. -/
def relayReciente (alertas : List AlertaRelayRow) (ahora : Int)
    (cel : String) : Option Nat :=
  (alertas.find? (fun a =>
    a.celular == cel && a.fuente_alerta == "relay" &&
    decide (ahora - 5 < a.fecha_hora))).map (fun a => a.id)

/-- The relay path: return the recent alert id without creating
anything, or create a fresh relay alert.  Result: the alert table, the
next fresh id, the alert id reported to the caller, and whether a new
alert was created. -/
def relay_ble (alertas : List AlertaRelayRow) (proximo_id : Nat)
    (ahora : Int) (usuarioCel : String) :
    List AlertaRelayRow × Nat × Nat × Bool :=
  match relayReciente alertas ahora usuarioCel with
  | some aid => (alertas, proximo_id, aid, false)
  | none =>
      let cc := (normalizar_celular usuarioCel).2
      (alertas ++ [⟨proximo_id, cc, "relay", ahora⟩], proximo_id + 1, proximo_id, true)

/-! ## Theorems -/

/-- Claim C1.  The quorum transition of `confirmar_vigilancia` is not
exactly-once under concurrent confirmations: starting from an active
vigilance with one confirmation, the interleaving `carreraVigilancia`
of two further confirmations — both permitted by the
statement-at-a-time database, since the handler wraps no transaction
around its decision snapshot and its escalation writes — creates two
tier-2 alerts with classification `"seguridad"`, where the claim
requires exactly one.  Sequential execution of the same two
confirmations creates exactly one alert, the third confirmation after
escalation creating none. -/
theorem c1_doble_escalada_carrera :
    carreraVigilancia.alertas.length = 2 ∧
    carreraVigilancia.alertas.map (fun a => (a.nivel_emergencia, a.tipo_alerta)) =
      [(2, "seguridad"), (2, "seguridad")] ∧
    carreraVigilancia.vigilancias.map (fun v => (v.escalada, v.alerta_id)) =
      [(true, some 2)] ∧
    secuencialVigilancia.alertas.length = 1 ∧
    secuencialVigilancia.vigilancias.map (fun v => (v.escalada, v.alerta_id)) =
      [(true, some 1)] := by
  decide

/-- Claim C9.  Protocol lookup returns the table entry for a known
classification and the default protocol for any unrecognized one (the
first equation, with no runtime flags set); a weapon forces police
participation, minimum tier 3 and a 1-minute re-escalation timeout;
injuries force ambulance participation and a minimum tier of at
least 2. -/
theorem c9_protocolo_ajustes (c : String) (arma heridos : Bool) :
    obtener_protocolo c false false =
      (PROTOCOLOS_EMERGENCIA c).getD PROTOCOLO_DEFAULT ∧
    (obtener_protocolo c true heridos).circulos.policia = true ∧
    (obtener_protocolo c true heridos).nivel_minimo = 3 ∧
    (obtener_protocolo c true heridos).escalar_min = 1 ∧
    (obtener_protocolo c arma true).circulos.ambulancia = true ∧
    2 ≤ (obtener_protocolo c arma true).nivel_minimo := by
  refine ⟨?_, ?_, ?_, ?_, ?_, ?_⟩
  · simp [obtener_protocolo]
  · cases heridos <;> simp [obtener_protocolo]
  · cases heridos <;> simp [obtener_protocolo]
  · cases heridos <;> simp [obtener_protocolo]
  · cases arma <;> simp [obtener_protocolo]
  · cases arma
    · simp only [obtener_protocolo]
      by_cases h : ((PROTOCOLOS_EMERGENCIA c).getD PROTOCOLO_DEFAULT).nivel_minimo < 2
      · simp [h]
      · simp [h]
        omega
    · simp [obtener_protocolo]

/-- Claim C10.  A coordinate supplied as exactly `0` is falsy in the
guards `nivel >= 2 and req.latitud and req.longitud` and
`nivel >= 3 and ...`, so both circles are empty at every tier and for
every interior resolution, identically to the coordinate-absent
case. -/
theorem c10_cero_como_ausente (n : Int) (o : Option ℚ)
    (rI : ℚ → ℚ → List Institucional) (rC : ℚ → ℚ → List MiembroComunidad) :
    circuloInstitucional (clampNivel n) (some 0) o rI = [] ∧
    circuloInstitucional (clampNivel n) o (some 0) rI = [] ∧
    circuloComunitario (clampNivel n) (some 0) o rC = [] ∧
    circuloComunitario (clampNivel n) o (some 0) rC = [] ∧
    circuloInstitucional (clampNivel n) (some 0) o rI =
      circuloInstitucional (clampNivel n) none o rI ∧
    circuloInstitucional (clampNivel n) o (some 0) rI =
      circuloInstitucional (clampNivel n) o none rI ∧
    circuloComunitario (clampNivel n) (some 0) o rC =
      circuloComunitario (clampNivel n) none o rC ∧
    circuloComunitario (clampNivel n) o (some 0) rC =
      circuloComunitario (clampNivel n) o none rC := by
  cases o <;> simp [circuloInstitucional, circuloComunitario]

/-- Claim C5, counterexample.  At tier 2 with both coordinates supplied
as `0.0` the institutional circle is empty for every interior
resolution, although the tier is at least 2 and both coordinates are
present — so "institutional resolves iff tier >= 2 and coordinates
present" is false on the code. -/
theorem c5_contraejemplo :
    ¬ ((∃ rI, circuloInstitucional (clampNivel 2) (some 0) (some 0) rI ≠ []) ↔
        (2 ≤ clampNivel 2 ∧ (some (0 : ℚ)).isSome ∧ (some (0 : ℚ)).isSome)) := by
  intro h
  obtain ⟨rI, hr⟩ := h.mpr ⟨by norm_num [clampNivel], rfl, rfl⟩
  exact hr (by simp [circuloInstitucional])

/-- Claim C5 as amended: for every tier-1 alert both circles are empty
regardless of coordinates; for every alert without coordinates both
circles are empty regardless of tier; and the institutional
(respectively community) circle can be non-empty iff the clamped tier
is at least 2 (respectively 3) and both coordinates are present *and
nonzero* (Python truthiness). -/
theorem c5_niveles_circulos (n : Int) (lat lon : Option ℚ) :
    (∀ rI, circuloInstitucional (clampNivel 1) lat lon rI = []) ∧
    (∀ rC, circuloComunitario (clampNivel 1) lat lon rC = []) ∧
    (∀ rI lo, circuloInstitucional (clampNivel n) none lo rI = []) ∧
    (∀ rI la, circuloInstitucional (clampNivel n) la none rI = []) ∧
    (∀ rC lo, circuloComunitario (clampNivel n) none lo rC = []) ∧
    (∀ rC la, circuloComunitario (clampNivel n) la none rC = []) ∧
    ((∃ rI, circuloInstitucional (clampNivel n) lat lon rI ≠ []) ↔
      (2 ≤ clampNivel n ∧ truthyCoord lat ∧ truthyCoord lon)) ∧
    ((∃ rC, circuloComunitario (clampNivel n) lat lon rC ≠ []) ↔
      (3 ≤ clampNivel n ∧ truthyCoord lat ∧ truthyCoord lon)) := by
  refine ⟨?_, ?_, ?_, ?_, ?_, ?_, ?_, ?_⟩
  · intro rI; cases lat <;> cases lon <;>
      simp [circuloInstitucional, clampNivel]
  · intro rC; cases lat <;> cases lon <;>
      simp [circuloComunitario, clampNivel]
  · intro rI lo; cases lo <;> rfl
  · intro rI la; cases la <;> rfl
  · intro rC lo; cases lo <;> rfl
  · intro rC la; cases la <;> rfl
  · constructor
    · rintro ⟨rI, hr⟩
      cases lat with
      | none => exact absurd rfl hr
      | some la =>
        cases lon with
        | none => exact absurd rfl hr
        | some lo =>
          by_cases hg : 2 ≤ clampNivel n ∧ la ≠ 0 ∧ lo ≠ 0
          · exact ⟨hg.1, hg.2.1, hg.2.2⟩
          · exact absurd (by simp [circuloInstitucional, if_neg hg]) hr
    · rintro ⟨h1, h2, h3⟩
      cases lat with
      | none => exact absurd h2 id
      | some la =>
        cases lon with
        | none => exact absurd h3 id
        | some lo =>
          have hg : 2 ≤ clampNivel n ∧ la ≠ 0 ∧ lo ≠ 0 := ⟨h1, h2, h3⟩
          refine ⟨fun _ _ => [(⟨"", "", "", "", 0⟩ : Institucional)], ?_⟩
          simp only [circuloInstitucional, if_pos hg]
          simp
  · constructor
    · rintro ⟨rC, hr⟩
      cases lat with
      | none => exact absurd rfl hr
      | some la =>
        cases lon with
        | none => exact absurd rfl hr
        | some lo =>
          by_cases hg : 3 ≤ clampNivel n ∧ la ≠ 0 ∧ lo ≠ 0
          · exact ⟨hg.1, hg.2.1, hg.2.2⟩
          · exact absurd (by simp [circuloComunitario, if_neg hg]) hr
    · rintro ⟨h1, h2, h3⟩
      cases lat with
      | none => exact absurd h2 id
      | some la =>
        cases lon with
        | none => exact absurd h3 id
        | some lo =>
          have hg : 3 ≤ clampNivel n ∧ la ≠ 0 ∧ lo ≠ 0 := ⟨h1, h2, h3⟩
          refine ⟨fun _ _ => [(⟨"", "", 0⟩ : MiembroComunidad)], ?_⟩
          simp only [circuloComunitario, if_pos hg]
          simp

/-- The haversine distance from a point to itself is zero. -/
theorem distancia_km_self (lat lon : ℝ) : distancia_km lat lon lat lon = 0 := by
  simp [distancia_km, radianes]

/-- Claim C7.  Membership in the community radius filter is exactly the
inclusive check `distancia_km ... ≤ 1`, so a candidate at distance
exactly the radius is included and one beyond it is excluded; and a
candidate exactly on the origin has distance 0 (hence is included,
`0 ≤ 1`). -/
theorem c7_radio_inclusivo (lat lon : ℝ) (candidatos : List MiembroRed)
    (r : MiembroRed) (hr : r ∈ candidatos) :
    (r ∈ cercanosComunitaria lat lon candidatos ↔
      distancia_km lat lon r.latitud r.longitud ≤ 1) ∧
    distancia_km lat lon lat lon = 0 ∧
    (distancia_km lat lon r.latitud r.longitud = 1 →
      r ∈ cercanosComunitaria lat lon candidatos) ∧
    (1 < distancia_km lat lon r.latitud r.longitud →
      r ∉ cercanosComunitaria lat lon candidatos) := by
  have hmem : r ∈ cercanosComunitaria lat lon candidatos ↔
      distancia_km lat lon r.latitud r.longitud ≤ 1 := by
    simp [cercanosComunitaria, hr]
  refine ⟨hmem, distancia_km_self lat lon, ?_, ?_⟩
  · intro he; exact hmem.mpr (le_of_eq he)
  · intro hgt hin; exact absurd (hmem.mp hin) (not_le.mpr hgt)

/-- Witness for `c7_radio_inclusivo`: the origin itself as the only
candidate. -/
theorem c7_radio_inclusivo_witness :
    ((⟨"x", "x", 0, 0⟩ : MiembroRed) ∈
        cercanosComunitaria 0 0 [⟨"x", "x", 0, 0⟩] ↔
      distancia_km 0 0 0 0 ≤ 1) ∧
    distancia_km 0 0 0 0 = 0 ∧
    (distancia_km 0 0 0 0 = 1 →
      (⟨"x", "x", 0, 0⟩ : MiembroRed) ∈ cercanosComunitaria 0 0 [⟨"x", "x", 0, 0⟩]) ∧
    (1 < distancia_km 0 0 0 0 →
      (⟨"x", "x", 0, 0⟩ : MiembroRed) ∉ cercanosComunitaria 0 0 [⟨"x", "x", 0, 0⟩]) :=
  c7_radio_inclusivo 0 0 [⟨"x", "x", 0, 0⟩] ⟨"x", "x", 0, 0⟩ (by simp)

/-- In the contact loop, a phone key already in the seen set never
produces an entry. -/
theorem pasoContactos_filter_visto (cel : String) :
    ∀ (contactos : List Contacto) (vistos : List String), cel ∈ vistos →
      (pasoContactos vistos contactos).1.filter (fun d => d.celular == cel) = [] := by
  intro contactos
  induction contactos with
  | nil => intro vistos _; simp [pasoContactos]
  | cons r resto ih =>
    intro vistos h
    by_cases hv : r.celular ∈ vistos
    · simp only [pasoContactos, if_pos hv]
      exact ih vistos h
    · have hne : r.celular ≠ cel := fun he => hv (he ▸ h)
      simp only [pasoContactos, if_neg hv, List.filter_cons]
      simp only [beq_iff_eq, hne, if_false, ite_false, reduceIte]
      exact ih (r.celular :: vistos) (List.mem_cons_of_mem _ h)

/-- The contact loop only grows the seen set. -/
theorem pasoContactos_vistos_mono (cel : String) :
    ∀ (contactos : List Contacto) (vistos : List String), cel ∈ vistos →
      cel ∈ (pasoContactos vistos contactos).2 := by
  intro contactos
  induction contactos with
  | nil => intro vistos h; simpa [pasoContactos] using h
  | cons r resto ih =>
    intro vistos h
    by_cases hv : r.celular ∈ vistos
    · simp only [pasoContactos, if_pos hv]; exact ih vistos h
    · simp only [pasoContactos, if_neg hv]
      exact ih (r.celular :: vistos) (List.mem_cons_of_mem _ h)

/-- Every contact phone key ends up in the seen set the contact loop
returns. -/
theorem pasoContactos_vistos_mem (cel : String) :
    ∀ (contactos : List Contacto) (vistos : List String),
      cel ∈ contactos.map (fun c => c.celular) →
      cel ∈ (pasoContactos vistos contactos).2 := by
  intro contactos
  induction contactos with
  | nil => intro vistos h; simp at h
  | cons r resto ih =>
    intro vistos h
    rcases List.mem_map.mp h with ⟨x, hx, hxcel⟩
    rcases List.mem_cons.mp hx with hhead | htail
    · subst hhead
      by_cases hv : x.celular ∈ vistos
      · simp only [pasoContactos, if_pos hv]
        exact pasoContactos_vistos_mono _ resto vistos (hxcel ▸ hv)
      · simp only [pasoContactos, if_neg hv]
        exact pasoContactos_vistos_mono _ resto (x.celular :: vistos)
          (hxcel ▸ List.mem_cons_self _ _)
    · have hm : cel ∈ resto.map (fun c => c.celular) :=
        List.mem_map.mpr ⟨x, htail, hxcel⟩
      by_cases hv : r.celular ∈ vistos
      · simp only [pasoContactos, if_pos hv]; exact ih vistos hm
      · simp only [pasoContactos, if_neg hv]; exact ih (r.celular :: vistos) hm

/-- The entries the contact loop produces for a phone key not yet seen:
exactly one, carrying the name of the first contact-list row with that
key. -/
theorem pasoContactos_filter_find (cel : String) (c : Contacto) :
    ∀ (contactos : List Contacto) (vistos : List String), cel ∉ vistos →
      contactos.find? (fun x => x.celular == cel) = some c →
      (pasoContactos vistos contactos).1.filter (fun d => d.celular == cel) =
        [⟨c.celular, c.nombre, "cuidador", none⟩] := by
  intro contactos
  induction contactos with
  | nil => intro vistos _ hfind; simp at hfind
  | cons r resto ih =>
    intro vistos hv hfind
    by_cases hpr : r.celular = cel
    · have hfr : (r :: resto).find? (fun x => x.celular == cel) = some r :=
        List.find?_cons_of_pos _ (beq_iff_eq.mpr hpr)
      have hrc : r = c := by
        rw [hfr] at hfind; exact Option.some_injective _ hfind
      have hrv : r.celular ∉ vistos := hpr ▸ hv
      simp only [pasoContactos, if_neg hrv, List.filter_cons]
      simp only [beq_iff_eq, hpr, if_true, ite_true, reduceIte]
      rw [pasoContactos_filter_visto cel resto (cel :: vistos)
        (List.mem_cons_self _ _)]
      subst hrc
      simp [hpr]
    · have hfr : (r :: resto).find? (fun x => x.celular == cel) =
          resto.find? (fun x => x.celular == cel) :=
        List.find?_cons_of_neg _ (by simp [hpr])
      rw [hfr] at hfind
      by_cases hrv : r.celular ∈ vistos
      · simp only [pasoContactos, if_pos hrv]
        exact ih vistos hv hfind
      · simp only [pasoContactos, if_neg hrv, List.filter_cons]
        simp only [beq_iff_eq, hpr, if_false, ite_false, reduceIte]
        have hnm : cel ∉ r.celular :: vistos := by
          intro hm
          rcases List.mem_cons.mp hm with h1 | h2
          · exact hpr h1.symm
          · exact hv h2
        exact ih (r.celular :: vistos) hnm hfind

/-- The authorization loop produces no entry for a phone key already in
its seen set. -/
theorem pasoAutorizados_filter_visto (cel : String) :
    ∀ (autorizados : List Autorizado) (vistos : List String), cel ∈ vistos →
      (pasoAutorizados vistos autorizados).1.filter (fun d => d.celular == cel) = [] := by
  intro autorizados
  induction autorizados with
  | nil => intro vistos _; simp [pasoAutorizados]
  | cons r resto ih =>
    intro vistos h
    by_cases hv : r.celular_cuidador ∈ vistos
    · simp only [pasoAutorizados, if_pos hv]
      exact ih vistos h
    · have hne : r.celular_cuidador ≠ cel := fun he => hv (he ▸ h)
      simp only [pasoAutorizados, if_neg hv, List.filter_cons]
      simp only [beq_iff_eq, hne, if_false, ite_false, reduceIte]
      exact ih (r.celular_cuidador :: vistos) (List.mem_cons_of_mem _ h)

/-- Claim C6.  A recipient appearing in the contact list (first such
row `c`) and also holding a caregiver authorization appears exactly
once in the personal-contact circle, as the contact-list entry with its
stored name — the singleton filter result. -/
theorem c6_dedup_cuidadores (contactos : List Contacto)
    (autorizados : List Autorizado) (cel : String) (c : Contacto)
    (hfind : contactos.find? (fun x => x.celular == cel) = some c)
    (_hauth : cel ∈ autorizados.map (fun a => a.celular_cuidador)) :
    (resolverCuidadores contactos autorizados).filter (fun d => d.celular == cel) =
      [⟨cel, c.nombre, "cuidador", none⟩] := by
  have hc_cel : c.celular = cel := by
    have := List.find?_some hfind
    exact beq_iff_eq.mp this
  have hc_mem : c ∈ contactos := List.mem_of_find?_eq_some hfind
  have hmap : cel ∈ contactos.map (fun x => x.celular) :=
    List.mem_map.mpr ⟨c, hc_mem, hc_cel⟩
  simp only [resolverCuidadores, List.filter_append]
  rw [pasoContactos_filter_find cel c contactos [] (List.not_mem_nil cel) hfind]
  rw [pasoAutorizados_filter_visto cel autorizados _
    (pasoContactos_vistos_mem cel contactos [] hmap)]
  rw [hc_cel]
  simp

/-- Witness for `c6_dedup_cuidadores`: one contact row and one
caregiver authorization sharing the phone key. -/
theorem c6_dedup_cuidadores_witness :
    (resolverCuidadores [⟨"3001112233", "Maria"⟩] [⟨"3001112233", some 7⟩]).filter
        (fun d => d.celular == "3001112233") =
      [⟨"3001112233", "Maria", "cuidador", none⟩] :=
  c6_dedup_cuidadores [⟨"3001112233", "Maria"⟩] [⟨"3001112233", some 7⟩]
    "3001112233" ⟨"3001112233", "Maria"⟩ (by rfl) (by simp)

/-- Claim C2, counterexample.  A duplicate Response without an
`id_persona` is accepted: with alert 1 existing and a Response row for
the same responder already stored, resubmitting the identical request
(`id_persona = None`) succeeds and appends a second row for the same
(alert, responder-identity) pair, because the handler's duplicate check
runs only under `if req.id_persona:` and the table has no uniqueness
constraint. -/
theorem c2_contraejemplo :
    responder_alerta [1]
        [⟨1, 0, "573001112233", "Cuidador", "Respondedor", "voy_en_camino"⟩]
        (fun _ _ => none) (fun _ _ => none)
        ⟨1, "3001112233", none, "cuidador", none⟩ =
      .ok ([⟨1, 0, "573001112233", "Cuidador", "Respondedor", "voy_en_camino"⟩,
            ⟨1, 0, "573001112233", "Cuidador", "Respondedor", "voy_en_camino"⟩],
           "Respondedor", "voy_en_camino") := by
  rfl

/-- Claim C2 as amended: when the request carries a nonzero
`id_persona`, a duplicate Response for the same (alert, responder)
fails with 409 and no row is created; requests without `id_persona`
bypass the duplicate check. -/
theorem c2_duplicado_409 (alertas : List Nat) (respuestas : List RespuestaRow)
    (instituciones : String → String → Option (String × String))
    (usuariosNombre : String → String → Option String)
    (req : RespuestaAlertaReq) (n : Nat)
    (hid : req.id_persona = some n) (hn : n ≠ 0)
    (halerta : req.alerta_id ∈ alertas)
    (hdup : ∃ r ∈ respuestas, r.alerta_id = req.alerta_id ∧
      (r.celular = (normalizar_celular req.celular).1 ∨
       r.celular = (normalizar_celular req.celular).2)) :
    responder_alerta alertas respuestas instituciones usuariosNombre req =
      .error 409 := by
  obtain ⟨r, hr, hra, hrc⟩ := hdup
  have hany : respuestas.any (fun s =>
      s.alerta_id == req.alerta_id &&
        (s.celular == (normalizar_celular req.celular).1 ||
         s.celular == (normalizar_celular req.celular).2)) = true := by
    refine List.any_eq_true.mpr ⟨r, hr, ?_⟩
    simp only [Bool.and_eq_true, Bool.or_eq_true, beq_iff_eq]
    exact ⟨hra, hrc⟩
  simp only [responder_alerta, hid, truthyNat]
  rw [if_neg (by simpa using halerta)]
  rw [if_pos (by simp [hany, hn])]

/-- Witness for `c2_duplicado_409`. -/
theorem c2_duplicado_409_witness :
    responder_alerta [1]
        [⟨1, 5, "573001112233", "Cuidador", "Ana", "voy_en_camino"⟩]
        (fun _ _ => none) (fun _ _ => none)
        ⟨1, "3001112233", some 5, "cuidador", none⟩ =
      .error 409 :=
  c2_duplicado_409 [1] [⟨1, 5, "573001112233", "Cuidador", "Ana", "voy_en_camino"⟩]
    (fun _ _ => none) (fun _ _ => none)
    ⟨1, "3001112233", some 5, "cuidador", none⟩ 5 rfl (by decide)
    (by simp)
    ⟨⟨1, 5, "573001112233", "Cuidador", "Ana", "voy_en_camino"⟩, by simp, rfl,
      Or.inr (by rfl)⟩

/-- The per-recipient record keeps the recipient's phone key. -/
theorem registroDe_celular (alerta_id : Nat) (tokens : String → Option String)
    (pushOk : String → Bool) (d : DestEnvio) (rol : String) :
    (registroDe alerta_id tokens pushOk d rol).celular_destino = d.celular := by
  unfold registroDe
  cases tokens d.celular <;> rfl

/-- The per-recipient record's alert id. -/
theorem registroDe_alerta (alerta_id : Nat) (tokens : String → Option String)
    (pushOk : String → Bool) (d : DestEnvio) (rol : String) :
    (registroDe alerta_id tokens pushOk d rol).alerta_id = alerta_id := by
  unfold registroDe
  cases tokens d.celular <;> rfl

/-- The per-recipient record's outcome: failed without a token, else
the transport outcome. -/
theorem registroDe_estado (alerta_id : Nat) (tokens : String → Option String)
    (pushOk : String → Bool) (d : DestEnvio) (rol : String) :
    (registroDe alerta_id tokens pushOk d rol).estado_envio =
      (match tokens d.celular with
       | none => "fallido"
       | some t => if pushOk t then "enviado" else "fallido") := by
  unfold registroDe
  cases tokens d.celular <;> rfl

/-- Claim C4, counterexample.  A recipient present in both the
personal-contact list and the institutional list receives two
DeliveryRecords for the same alert, so at-most-one per
(alert, recipient) pair fails when circles overlap. -/
theorem c4_contraejemplo :
    ((enviarNotificacionesV2 1 (fun _ => none) (fun _ => false)
        [⟨"3001112233", "Ana", none, none⟩]
        [⟨"3001112233", "Ana", some "CAI Norte", none⟩] []).filter
      (fun r => r.celular_destino == "3001112233" && r.alerta_id == 1)).length = 2 := by
  rfl

/-- Claim C4 as amended: the dispatcher writes exactly one
DeliveryRecord per entry of the concatenated circle lists — in
particular a recipient with no delivery address gets a failed record —
and when the concatenated lists mention each recipient at most once,
at most one DeliveryRecord exists per (alert, recipient) pair. -/
theorem c4_un_registro_por_entrada (alerta_id : Nat)
    (tokens : String → Option String) (pushOk : String → Bool)
    (cuidadores institucionales comunidad : List DestEnvio) (cel : String)
    (hnodup : ((todosDestinatarios cuidadores institucionales comunidad).map
      (fun p => p.1.celular)).Nodup) :
    (enviarNotificacionesV2 alerta_id tokens pushOk cuidadores institucionales
        comunidad).length =
      cuidadores.length + institucionales.length + comunidad.length ∧
    (enviarNotificacionesV2 alerta_id tokens pushOk cuidadores institucionales
        comunidad).map (fun r => r.celular_destino) =
      (todosDestinatarios cuidadores institucionales comunidad).map
        (fun p => p.1.celular) ∧
    (enviarNotificacionesV2 alerta_id tokens pushOk cuidadores institucionales
        comunidad).map (fun r => r.estado_envio) =
      (todosDestinatarios cuidadores institucionales comunidad).map
        (fun p => match tokens p.1.celular with
          | none => "fallido"
          | some t => if pushOk t then "enviado" else "fallido") ∧
    ((enviarNotificacionesV2 alerta_id tokens pushOk cuidadores institucionales
        comunidad).filter (fun r => r.celular_destino == cel)).length ≤ 1 := by
  refine ⟨?_, ?_, ?_, ?_⟩
  · simp [enviarNotificacionesV2, todosDestinatarios]
    omega
  · simp only [enviarNotificacionesV2, List.map_map]
    exact List.map_congr_left fun p _ => registroDe_celular _ _ _ _ _
  · simp only [enviarNotificacionesV2, List.map_map]
    exact List.map_congr_left fun p _ => registroDe_estado _ _ _ _ _
  · have hmapcel : (enviarNotificacionesV2 alerta_id tokens pushOk cuidadores
        institucionales comunidad).map (fun r => r.celular_destino) =
        (todosDestinatarios cuidadores institucionales comunidad).map
          (fun p => p.1.celular) := by
      simp only [enviarNotificacionesV2, List.map_map]
      exact List.map_congr_left fun p _ => registroDe_celular _ _ _ _ _
    have hlen : ((enviarNotificacionesV2 alerta_id tokens pushOk cuidadores
        institucionales comunidad).filter
          (fun r => r.celular_destino == cel)).length =
        ((enviarNotificacionesV2 alerta_id tokens pushOk cuidadores
          institucionales comunidad).map (fun r => r.celular_destino)).count cel := by
      show _ = ((enviarNotificacionesV2 alerta_id tokens pushOk cuidadores
          institucionales comunidad).map (fun r => r.celular_destino)).countP
        (fun x => x == cel)
      rw [List.countP_map]
      exact (List.countP_eq_length_filter _ _).symm
    rw [hlen, hmapcel]
    exact List.nodup_iff_count_le_one.mp hnodup cel

/-- Witness for `c4_un_registro_por_entrada`: one token-less caregiver
recipient. -/
theorem c4_un_registro_por_entrada_witness :
    (enviarNotificacionesV2 7 (fun _ => none) (fun _ => false)
        [⟨"3001112233", "Ana", none, none⟩] [] []).length = 1 + 0 + 0 ∧
    (enviarNotificacionesV2 7 (fun _ => none) (fun _ => false)
        [⟨"3001112233", "Ana", none, none⟩] [] []).map (fun r => r.celular_destino) =
      (todosDestinatarios [⟨"3001112233", "Ana", none, none⟩] [] []).map
        (fun p => p.1.celular) ∧
    (enviarNotificacionesV2 7 (fun _ => none) (fun _ => false)
        [⟨"3001112233", "Ana", none, none⟩] [] []).map (fun r => r.estado_envio) =
      (todosDestinatarios [⟨"3001112233", "Ana", none, none⟩] [] []).map
        (fun p => match (fun _ => (none : Option String)) p.1.celular with
          | none => "fallido"
          | some t => if (fun _ => false) t then "enviado" else "fallido") ∧
    ((enviarNotificacionesV2 7 (fun _ => none) (fun _ => false)
        [⟨"3001112233", "Ana", none, none⟩] [] []).filter
      (fun r => r.celular_destino == "3001112233")).length ≤ 1 :=
  c4_un_registro_por_entrada 7 (fun _ => none) (fun _ => false)
    [⟨"3001112233", "Ana", none, none⟩] [] [] "3001112233" (by simp [todosDestinatarios])

/-- `find?` over an append skips a left part in which nothing
matches. -/
theorem find?_append_of_none {α : Type} (p : α → Bool) :
    ∀ (l1 l2 : List α), l1.find? p = none →
      (l1 ++ l2).find? p = l2.find? p := by
  intro l1
  induction l1 with
  | nil => intro l2 _; rfl
  | cons a resto ih =>
    intro l2 h
    have hpa : p a = false := by
      by_cases hp : p a = true
      · rw [List.find?_cons_of_pos _ hp] at h; exact absurd h (by simp)
      · exact Bool.eq_false_iff.mpr hp
    rw [List.find?_cons_of_neg _ (by simp [hpa])] at h
    rw [List.cons_append, List.find?_cons_of_neg _ (by simp [hpa])]
    exact ih l2 h

/-- Claim C8.  A relay request for a registered owner (whose stored
phone is the canonical prefixed form, as registration writes it) with
no relay alert inside the 5-minute window creates an alert at `T`; an
identical request at `T+3` minutes returns the same alert id and
creates nothing; an identical request at `T+6` minutes creates a fresh
alert with a new id. -/
theorem c8_relay_dedupe (alertas : List AlertaRelayRow) (n0 : Nat) (T : Int)
    (u : String) (hu : (normalizar_celular u).2 = u)
    (hviejo : ∀ a ∈ alertas,
      ¬(a.celular = u ∧ a.fuente_alerta = "relay" ∧ T - 5 < a.fecha_hora)) :
    relay_ble alertas n0 T u =
      (alertas ++ [⟨n0, u, "relay", T⟩], n0 + 1, n0, true) ∧
    relay_ble (alertas ++ [⟨n0, u, "relay", T⟩]) (n0 + 1) (T + 3) u =
      (alertas ++ [⟨n0, u, "relay", T⟩], n0 + 1, n0, false) ∧
    relay_ble (alertas ++ [⟨n0, u, "relay", T⟩]) (n0 + 1) (T + 6) u =
      (alertas ++ [⟨n0, u, "relay", T⟩] ++ [⟨n0 + 1, u, "relay", T + 6⟩],
       n0 + 2, n0 + 1, true) := by
  have hventana : ∀ (t : Int), T - 5 ≤ t - 5 → alertas.find? (fun a =>
      a.celular == u && a.fuente_alerta == "relay" &&
        decide (t - 5 < a.fecha_hora)) = none := by
    intro t ht
    refine List.find?_eq_none.mpr fun a ha => ?_
    have hna := hviejo a ha
    simp only [Bool.and_eq_true, beq_iff_eq, decide_eq_true_eq, not_and] at hna ⊢
    rintro ⟨h1, h2⟩
    intro hlt
    have hle : a.fecha_hora ≤ T - 5 := by
      by_contra hc
      exact hna h1 h2 (by omega)
    omega
  refine ⟨?_, ?_, ?_⟩
  · have h0 : relayReciente alertas T u = none := by
      unfold relayReciente
      rw [hventana T (by omega)]
      rfl
    unfold relay_ble
    rw [h0, hu]
  · have h3 : relayReciente (alertas ++ [⟨n0, u, "relay", T⟩]) (T + 3) u =
        some n0 := by
      unfold relayReciente
      rw [find?_append_of_none _ _ _ (hventana (T + 3) (by omega))]
      rw [List.find?_cons_of_pos _ (by simp; omega)]
      rfl
    unfold relay_ble
    rw [h3]
  · have h6 : relayReciente (alertas ++ [⟨n0, u, "relay", T⟩]) (T + 6) u =
        none := by
      unfold relayReciente
      rw [find?_append_of_none _ _ _ (hventana (T + 6) (by omega))]
      rw [List.find?_cons_of_neg _ (by simp; omega)]
      rfl
    unfold relay_ble
    rw [h6, hu]

/-- Witness for `c8_relay_dedupe`: empty alert table, owner
`"573001234567"`, first request at minute 100. -/
theorem c8_relay_dedupe_witness :
    relay_ble [] 1 100 "573001234567" =
      ([⟨1, "573001234567", "relay", 100⟩], 2, 1, true) ∧
    relay_ble [⟨1, "573001234567", "relay", 100⟩] 2 103 "573001234567" =
      ([⟨1, "573001234567", "relay", 100⟩], 2, 1, false) ∧
    relay_ble [⟨1, "573001234567", "relay", 100⟩] 2 106 "573001234567" =
      ([⟨1, "573001234567", "relay", 100⟩, ⟨2, "573001234567", "relay", 106⟩],
       3, 2, true) := by
  have h := c8_relay_dedupe [] 1 100 "573001234567" (by rfl)
    (fun a ha => absurd ha (List.not_mem_nil a))
  simpa using h

/-- A non-self, non-duplicate report that brings the count for the
reported identity to `k + 1 ≥ 3` takes the blocking branch and returns
the blocked state. -/
theorem reportar_usuario_bloquea (st : EstadoAbuso) (r d : String) (k : Nat)
    (hself : (normalizar_celular r).2 ≠ (normalizar_celular d).2)
    (hdup : ((normalizar_celular d).2, (normalizar_celular r).2) ∉ st.reportes)
    (hcount : (st.reportes.filter
      (fun p => p.1 == (normalizar_celular d).2)).length = k)
    (hk : 2 ≤ k) :
    reportar_usuario st r d =
      .ok (⟨st.reportes ++ [((normalizar_celular d).2, (normalizar_celular r).2)],
            bloquearUsuarios (normalizar_celular d).1 (normalizar_celular d).2
              (k + 1) st.usuarios,
            deshabilitarUbicaciones (normalizar_celular d).2 st.ubicaciones⟩,
           k + 1, true) := by
  have htotal : ((st.reportes ++
      [((normalizar_celular d).2, (normalizar_celular r).2)]).filter
        (fun p => p.1 == (normalizar_celular d).2)).length = k + 1 := by
    simp [List.filter_append, hcount]
  simp only [reportar_usuario]
  rw [if_neg hself, if_neg hdup, htotal, if_pos (by omega : 3 ≤ k + 1)]

/-- Every user row carrying one of the two key forms of the reported
identity is blocked after `bloquearUsuarios`. -/
theorem bloquearUsuarios_bloqueado (cs cc : String) (total : Nat)
    (usuarios : List UsuarioSos) :
    ∀ u ∈ bloquearUsuarios cs cc total usuarios,
      (u.celular = cs ∨ u.celular = cc) → u.bloqueado = true := by
  intro u hu hcel
  rcases List.mem_map.mp hu with ⟨u0, _, hmap⟩
  by_cases h0 : u0.celular = cs ∨ u0.celular = cc
  · rw [if_pos h0] at hmap
    rw [← hmap]
  · rw [if_neg h0] at hmap
    rw [← hmap] at hcel
    exact absurd hcel h0

/-- Every location row of the reported identity is unavailable after
`deshabilitarUbicaciones`. -/
theorem deshabilitarUbicaciones_no_disponible (cc : String)
    (ubicaciones : List UbicacionRow) :
    ∀ p ∈ deshabilitarUbicaciones cc ubicaciones,
      p.celular = cc → p.disponible = false := by
  intro p hp hcel
  rcases List.mem_map.mp hp with ⟨p0, _, hmap⟩
  by_cases h0 : p0.celular = cc
  · rw [if_pos h0] at hmap
    rw [← hmap]
  · rw [if_neg h0] at hmap
    rw [← hmap] at hcel
    exact absurd hcel h0

/-- Blocking again changes neither phone keys nor blocked flags. -/
theorem bloquearUsuarios_flag_noop (cs cc : String) (t1 t2 : Nat)
    (usuarios : List UsuarioSos) :
    (bloquearUsuarios cs cc t2 (bloquearUsuarios cs cc t1 usuarios)).map
        (fun u => (u.celular, u.bloqueado)) =
      (bloquearUsuarios cs cc t1 usuarios).map
        (fun u => (u.celular, u.bloqueado)) := by
  simp only [bloquearUsuarios, List.map_map]
  refine List.map_congr_left fun u _ => ?_
  by_cases h0 : u.celular = cs ∨ u.celular = cc
  · simp [h0]
  · simp [h0]

/-- Marking unavailable is literally idempotent. -/
theorem deshabilitarUbicaciones_noop (cc : String)
    (ubicaciones : List UbicacionRow) :
    deshabilitarUbicaciones cc (deshabilitarUbicaciones cc ubicaciones) =
      deshabilitarUbicaciones cc ubicaciones := by
  simp only [deshabilitarUbicaciones, List.map_map]
  refine List.map_congr_left fun p _ => ?_
  by_cases h0 : p.celular = cc
  · simp [h0]
  · simp [h0]

/-- Claim C3.  With two prior reports against `d`, a third distinct
non-self report blocks the reported person (both stored key forms) and
marks their LocationPing unavailable, in the same step; a fourth
distinct report succeeds (no error), reports the person still blocked,
and leaves every blocked flag and every LocationPing exactly as the
third report left them. -/
theorem c3_tercer_reporte_bloquea (st : EstadoAbuso) (r3 r4 d : String)
    (csd ccd cr3 cr4 : String)
    (hcsd : csd = (normalizar_celular d).1) (hccd : ccd = (normalizar_celular d).2)
    (hcr3 : cr3 = (normalizar_celular r3).2) (hcr4 : cr4 = (normalizar_celular r4).2)
    (hself3 : cr3 ≠ ccd) (hself4 : cr4 ≠ ccd) (h34 : cr4 ≠ cr3)
    (hdup3 : (ccd, cr3) ∉ st.reportes) (hdup4 : (ccd, cr4) ∉ st.reportes)
    (hcount : (st.reportes.filter (fun p => p.1 == ccd)).length = 2) :
    reportar_usuario st r3 d =
      .ok (⟨st.reportes ++ [(ccd, cr3)],
            bloquearUsuarios csd ccd 3 st.usuarios,
            deshabilitarUbicaciones ccd st.ubicaciones⟩, 3, true) ∧
    (∀ u ∈ bloquearUsuarios csd ccd 3 st.usuarios,
      (u.celular = csd ∨ u.celular = ccd) → u.bloqueado = true) ∧
    (∀ p ∈ deshabilitarUbicaciones ccd st.ubicaciones,
      p.celular = ccd → p.disponible = false) ∧
    reportar_usuario ⟨st.reportes ++ [(ccd, cr3)],
        bloquearUsuarios csd ccd 3 st.usuarios,
        deshabilitarUbicaciones ccd st.ubicaciones⟩ r4 d =
      .ok (⟨st.reportes ++ [(ccd, cr3)] ++ [(ccd, cr4)],
            bloquearUsuarios csd ccd 4 (bloquearUsuarios csd ccd 3 st.usuarios),
            deshabilitarUbicaciones ccd
              (deshabilitarUbicaciones ccd st.ubicaciones)⟩, 4, true) ∧
    (bloquearUsuarios csd ccd 4 (bloquearUsuarios csd ccd 3 st.usuarios)).map
        (fun u => (u.celular, u.bloqueado)) =
      (bloquearUsuarios csd ccd 3 st.usuarios).map
        (fun u => (u.celular, u.bloqueado)) ∧
    deshabilitarUbicaciones ccd (deshabilitarUbicaciones ccd st.ubicaciones) =
      deshabilitarUbicaciones ccd st.ubicaciones := by
  subst hcsd hccd hcr3 hcr4
  refine ⟨?_, bloquearUsuarios_bloqueado _ _ _ _,
    deshabilitarUbicaciones_no_disponible _ _, ?_,
    bloquearUsuarios_flag_noop _ _ _ _ _, deshabilitarUbicaciones_noop _ _⟩
  · exact reportar_usuario_bloquea st r3 d 2 hself3 hdup3 hcount (by omega)
  · have hdup4b : ((normalizar_celular d).2, (normalizar_celular r4).2) ∉
        st.reportes ++ [((normalizar_celular d).2, (normalizar_celular r3).2)] := by
      intro hmem
      rcases List.mem_append.mp hmem with h1 | h2
      · exact hdup4 h1
      · rcases List.mem_singleton.mp h2 with h3
        exact h34 ((Prod.mk.injEq _ _ _ _).mp h3).2
    have hcount3 : ((st.reportes ++
        [((normalizar_celular d).2, (normalizar_celular r3).2)]).filter
          (fun p => p.1 == (normalizar_celular d).2)).length = 3 := by
      simp [List.filter_append, hcount]
    exact reportar_usuario_bloquea
      ⟨st.reportes ++ [((normalizar_celular d).2, (normalizar_celular r3).2)],
        bloquearUsuarios (normalizar_celular d).1 (normalizar_celular d).2 3
          st.usuarios,
        deshabilitarUbicaciones (normalizar_celular d).2 st.ubicaciones⟩
      r4 d 3 hself4 hdup4b hcount3 (by omega)

/-- Witness for `c3_tercer_reporte_bloquea`: a user with two prior
reports, reported by a third and then a fourth distinct reporter. -/
theorem c3_tercer_reporte_bloquea_witness :
    reportar_usuario
        ⟨[("573001112233", "573000000001"), ("573001112233", "573000000002")],
          [⟨"573001112233", false, none⟩], [⟨"573001112233", true⟩]⟩
        "3000000003" "3001112233" =
      .ok (⟨[("573001112233", "573000000001"), ("573001112233", "573000000002")] ++
              [("573001112233", "573000000003")],
            bloquearUsuarios "3001112233" "573001112233" 3
              [⟨"573001112233", false, none⟩],
            deshabilitarUbicaciones "573001112233" [⟨"573001112233", true⟩]⟩,
           3, true) ∧
    (∀ u ∈ bloquearUsuarios "3001112233" "573001112233" 3
        [⟨"573001112233", false, none⟩],
      (u.celular = "3001112233" ∨ u.celular = "573001112233") →
        u.bloqueado = true) ∧
    (∀ p ∈ deshabilitarUbicaciones "573001112233" [⟨"573001112233", true⟩],
      p.celular = "573001112233" → p.disponible = false) ∧
    reportar_usuario
        ⟨[("573001112233", "573000000001"), ("573001112233", "573000000002")] ++
            [("573001112233", "573000000003")],
          bloquearUsuarios "3001112233" "573001112233" 3
            [⟨"573001112233", false, none⟩],
          deshabilitarUbicaciones "573001112233" [⟨"573001112233", true⟩]⟩
        "3000000004" "3001112233" =
      .ok (⟨[("573001112233", "573000000001"), ("573001112233", "573000000002")] ++
              [("573001112233", "573000000003")] ++ [("573001112233", "573000000004")],
            bloquearUsuarios "3001112233" "573001112233" 4
              (bloquearUsuarios "3001112233" "573001112233" 3
                [⟨"573001112233", false, none⟩]),
            deshabilitarUbicaciones "573001112233"
              (deshabilitarUbicaciones "573001112233" [⟨"573001112233", true⟩])⟩,
           4, true) ∧
    (bloquearUsuarios "3001112233" "573001112233" 4
        (bloquearUsuarios "3001112233" "573001112233" 3
          [⟨"573001112233", false, none⟩])).map (fun u => (u.celular, u.bloqueado)) =
      (bloquearUsuarios "3001112233" "573001112233" 3
        [⟨"573001112233", false, none⟩]).map (fun u => (u.celular, u.bloqueado)) ∧
    deshabilitarUbicaciones "573001112233"
        (deshabilitarUbicaciones "573001112233" [⟨"573001112233", true⟩]) =
      deshabilitarUbicaciones "573001112233" [⟨"573001112233", true⟩] :=
  c3_tercer_reporte_bloquea
    ⟨[("573001112233", "573000000001"), ("573001112233", "573000000002")],
      [⟨"573001112233", false, none⟩], [⟨"573001112233", true⟩]⟩
    "3000000003" "3000000004" "3001112233"
    "3001112233" "573001112233" "573000000003" "573000000004"
    rfl rfl rfl rfl (by decide) (by decide) (by decide) (by decide) (by decide)
    (by decide)

end AmiSos
